import Mathlib

/-!
Verification of the conversation-analysis service: a shallow embedding of the
alert ingestion consumer (src/alerts/alerts.controller.ts, AlertsService), the
scheduled analysis orchestrator (ConversationsService) and the inference client
(OllamaService), with theorems settling the specified properties.
-/

/-! Alert ingestion pipeline (alerts.controller.ts + AlertsService). -/

inductive AlertType where
  | disconnected
  | message_deleted
  | message_edited
  | chat_removed
deriving DecidableEq, Repr

/-- Queue payload `data.alert` as consumed by the RabbitMQ handlers.
Optional fields model `undefined` (absent) JavaScript values. -/
structure AlertPayload where
  session : Option String
  sessionId : Option String
  type : AlertType
  message : Option String
  messageId : Option String
  chatId : Option String
  timestamp : Option Nat
deriving DecidableEq, Repr

/-- JavaScript truthiness of an optional string: `undefined` and `""` are falsy. -/
def truthyStr : Option String → Bool
  | some s => s != ""
  | none => false

/-- JavaScript truthiness of an optional number: `undefined` and `0` are falsy. -/
def truthyNum : Option Nat → Bool
  | some n => n != 0
  | none => false

/-- A BSON ObjectId: either parsed from a 24-hex-digit string or freshly generated
(`new Types.ObjectId(undefined)` generates a new id instead of throwing). -/
inductive OId where
  | ofString (s : String)
  | generated
deriving DecidableEq, Repr

/-- A string is accepted by the ObjectId constructor when it is 24 hex characters. -/
def isValidObjectIdHex (s : String) : Bool :=
  s.length == 24 && s.toList.all (fun c => c.isDigit || (c ≥ 'a' && c ≤ 'f') || (c ≥ 'A' && c ≤ 'F'))

/-- `new Types.ObjectId(x)`: absent input generates a fresh id; an invalid string throws. -/
def makeObjectId : Option String → Except String OId
  | none => .ok .generated
  | some s => if isValidObjectIdHex s then .ok (.ofString s) else .error "BSONError"

/-- One document of the append-only alert collection (whatsapp-alert schema),
as built by the `AlertsService.create*Alert` methods. -/
structure AlertRow where
  session : OId
  sessionId : Option String
  type : AlertType
  messageId : Option String
  chatId : Option String
  timestamp : Option Nat
  message : String
  isRead : Bool
deriving DecidableEq, Repr

/-- `AlertsService.createDisconnectedAlert`: message defaults via `??` to a fixed text. -/
def createDisconnectedAlert (oid : OId) (sessionId : Option String) (message : Option String) : AlertRow :=
  { session := oid, sessionId := sessionId, type := .disconnected
    messageId := none, chatId := none, timestamp := none
    message := message.getD "WhatsApp session disconnected", isRead := false }

/-- `AlertsService.createMessageDeletedAlert`: message defaults via `??` to "--". -/
def createMessageDeletedAlert (oid : OId) (sessionId : Option String) (messageId chatId : String)
    (timestamp : Nat) (message : Option String) : AlertRow :=
  { session := oid, sessionId := sessionId, type := .message_deleted
    messageId := some messageId, chatId := some chatId, timestamp := some timestamp
    message := message.getD "--", isRead := false }

/-- `AlertsService.createMessageEditedAlert`: message defaults to "Message edited: id". -/
def createMessageEditedAlert (oid : OId) (sessionId : Option String) (messageId chatId : String)
    (timestamp : Nat) (message : Option String) : AlertRow :=
  { session := oid, sessionId := sessionId, type := .message_edited
    messageId := some messageId, chatId := some chatId, timestamp := some timestamp
    message := message.getD ("Message edited: " ++ messageId), isRead := false }

/-- `AlertsService.createChatRemovedAlert`: message defaults to "Chat removed: id". -/
def createChatRemovedAlert (oid : OId) (sessionId : Option String) (chatId : String)
    (timestamp : Nat) (message : Option String) : AlertRow :=
  { session := oid, sessionId := sessionId, type := .chat_removed
    messageId := none, chatId := some chatId, timestamp := some timestamp
    message := message.getD ("Chat removed: " ++ chatId), isRead := false }

/-- Behaviour of `alertModel.create` for one delivery: the insert either succeeds
(one document written) or throws (no document written). -/
inductive StoreBehavior where
  | succeeds
  | fails
deriving DecidableEq, Repr

/-- Observable actions of one handler invocation, in program order:
warning log, alert document persisted, `channel.ack`, or `channel.nack(msg, multiple, requeue)`. -/
inductive ConsumerEvent where
  | warned
  | persisted (row : AlertRow)
  | acked
  | nacked (multiple requeue : Bool)
deriving DecidableEq, Repr

/-- `AlertsController.handleDisconnectedAlert`: no field validation; builds the
ObjectId, persists, then acks; any throw is caught and nacked with requeue=true. -/
def handleDisconnectedAlert (store : StoreBehavior) (p : AlertPayload) : List ConsumerEvent :=
  match makeObjectId p.session with
  | .error _ => [.nacked false true]
  | .ok oid =>
    match store with
    | .succeeds => [.persisted (createDisconnectedAlert oid p.sessionId p.message), .acked]
    | .fails => [.nacked false true]

/-- `AlertsController.handleMessageDeletedAlert`: drops (warn + ack) when
`messageId`, `chatId` or `timestamp` is falsy; otherwise persists then acks;
any throw is caught and nacked with requeue=true. -/
def handleMessageDeletedAlert (store : StoreBehavior) (p : AlertPayload) : List ConsumerEvent :=
  if !(truthyStr p.messageId && truthyStr p.chatId && truthyNum p.timestamp) then
    [.warned, .acked]
  else
    match makeObjectId p.session with
    | .error _ => [.nacked false true]
    | .ok oid =>
      match store with
      | .succeeds =>
          [.persisted (createMessageDeletedAlert oid p.sessionId (p.messageId.getD "")
            (p.chatId.getD "") (p.timestamp.getD 0) p.message), .acked]
      | .fails => [.nacked false true]

/-- `AlertsController.handleMessageEditedAlert`: same structure as the deleted handler. -/
def handleMessageEditedAlert (store : StoreBehavior) (p : AlertPayload) : List ConsumerEvent :=
  if !(truthyStr p.messageId && truthyStr p.chatId && truthyNum p.timestamp) then
    [.warned, .acked]
  else
    match makeObjectId p.session with
    | .error _ => [.nacked false true]
    | .ok oid =>
      match store with
      | .succeeds =>
          [.persisted (createMessageEditedAlert oid p.sessionId (p.messageId.getD "")
            (p.chatId.getD "") (p.timestamp.getD 0) p.message), .acked]
      | .fails => [.nacked false true]

/-- `AlertsController.handleChatRemovedAlert`: drops (warn + ack) when `chatId`
or `timestamp` is falsy; otherwise persists then acks; throws are nacked with requeue. -/
def handleChatRemovedAlert (store : StoreBehavior) (p : AlertPayload) : List ConsumerEvent :=
  if !(truthyStr p.chatId && truthyNum p.timestamp) then
    [.warned, .acked]
  else
    match makeObjectId p.session with
    | .error _ => [.nacked false true]
    | .ok oid =>
      match store with
      | .succeeds =>
          [.persisted (createChatRemovedAlert oid p.sessionId (p.chatId.getD "")
            (p.timestamp.getD 0) p.message), .acked]
      | .fails => [.nacked false true]

/-- Alert documents created during one handler invocation. -/
def alertsOf (t : List ConsumerEvent) : List AlertRow :=
  t.filterMap (fun e => match e with | .persisted a => some a | _ => none)

/-- Number of `channel.ack` calls in a handler trace. -/
def ackCount (t : List ConsumerEvent) : Nat :=
  t.countP (fun e => match e with | .acked => true | _ => false)

/-- Number of `channel.nack` calls in a handler trace. -/
def nackCount (t : List ConsumerEvent) : Nat :=
  t.countP (fun e => match e with | .nacked _ _ => true | _ => false)

/-! Scheduled analysis orchestrator (ConversationsService). -/

/-- Value stored in a conversation's `analysis` field: the zero-message error
object, a parsed JSON object (of abstract type α), or the tolerant-parse
fallback object with the raw reply text. -/
inductive OllamaAnalysis (α : Type) where
  | errNoMessages
  | parsed (v : α)
  | fallbackRaw (raw : String) (error : String)
deriving DecidableEq, Repr

/-- One document of the whatsapp-chat collection, restricted to the fields the
analysis pipeline reads and writes. `none` models an absent or null BSON value. -/
structure ChatDoc (α : Type) where
  chatId : String
  sessionId : String
  lastMessage : Option String
  lastMessageTimestamp : Int
  lastAnalysisTimestamp : Option Int
  analysis : Option (OllamaAnalysis α)
deriving DecidableEq, Repr

/-- The Mongo filter of `analyseConvesation`: `lastMessage` exists and is not in
[null, ''], and `lastAnalysisTimestamp` is null or less than `lastMessageTimestamp`. -/
def needsAnalysis (c : ChatDoc α) : Bool :=
  (match c.lastMessage with
   | some s => s != ""
   | none => false) &&
  (match c.lastAnalysisTimestamp with
   | none => true
   | some a => a < c.lastMessageTimestamp)

/-- Ordering used by `.sort(\x7b lastMessageTimestamp: -1 \x7d)`: descending timestamps. -/
def byTsDesc (a b : ChatDoc α) : Prop :=
  b.lastMessageTimestamp ≤ a.lastMessageTimestamp

instance : DecidableRel (byTsDesc (α := α)) :=
  fun a b => inferInstanceAs (Decidable (b.lastMessageTimestamp ≤ a.lastMessageTimestamp))

instance : IsTotal (ChatDoc α) byTsDesc :=
  ⟨fun a b => le_total b.lastMessageTimestamp a.lastMessageTimestamp⟩

instance : IsTrans (ChatDoc α) byTsDesc :=
  ⟨fun _ _ _ h1 h2 => le_trans h2 h1⟩

/-- Candidate selection of the cron job `analyseConvesation`: filter the chats
needing analysis, sort by `lastMessageTimestamp` descending, cap at 30. -/
def selectCandidates (chats : List (ChatDoc α)) : List (ChatDoc α) :=
  ((chats.filter needsAnalysis).insertionSort byTsDesc).take 30

/-- The per-candidate loop of the cron job: each candidate is analyzed inside
its own try/catch, so a failing candidate is logged (recorded as `false`) and
the loop continues with the shared store state unchanged by the failed call. -/
def runScheduledBatch (analyze : ChatDoc α → σ → Except String σ) :
    List (ChatDoc α) → σ → σ × List (ChatDoc α × Bool)
  | [], s => (s, [])
  | c :: rest, s =>
    match analyze c s with
    | .ok s1 =>
      let r := runScheduledBatch analyze rest s1
      (r.1, (c, true) :: r.2)
    | .error _ =>
      let r := runScheduledBatch analyze rest s
      (r.1, (c, false) :: r.2)

/-- Dispatch events of one scheduling tick: an analysis request starting or completing. -/
inductive BatchEvent (α : Type) where
  | started (c : ChatDoc α)
  | finished (c : ChatDoc α)
deriving DecidableEq, Repr

/-- Dispatch trace of the cron loop: the body `await this.analyzeConversation(...)`
completes each candidate's analysis before the next one starts. -/
def scheduledBatchTrace : List (ChatDoc α) → List (BatchEvent α)
  | [] => []
  | c :: rest => .started c :: .finished c :: scheduledBatchTrace rest

/-- Running maximum of in-flight analyses along a trace, starting from `cur` in flight. -/
def peakAux : List (BatchEvent α) → Nat → Nat
  | [], cur => cur
  | .started _ :: rest, cur => max (cur + 1) (peakAux rest (cur + 1))
  | .finished _ :: rest, cur => peakAux rest (cur - 1)

/-- Maximum number of analyses simultaneously in flight along a trace. -/
def peakInFlight (t : List (BatchEvent α)) : Nat :=
  peakAux t 0

/-- Modelled from the spec: a dispatcher with bounded concurrency limit `k`
(src has no such dispatcher) starts the first `min k n` pending candidates
before any of them completes; this is the initial segment of its trace. -/
def specPoolPrefix (k : Nat) (chats : List (ChatDoc α)) : List (BatchEvent α) :=
  (chats.take k).map .started

/-! Inference client (OllamaService) and the on-demand orchestrator. -/

/-- One document of the whatsapp-message collection, restricted to the fields
`getConversationMessages` and `formatMessagesForLLM` read. -/
structure MsgDoc where
  chatId : String
  sessionId : String
  fromMe : Bool
  timestamp : Nat
  body : Option String
  isDeleted : Bool
deriving DecidableEq, Repr

/-- One transcript line of `formatMessagesForLLM`: sender is "Agent" for
self-sent messages and "Customer" otherwise; a falsy body (absent or empty,
`msg.body || ...`) renders as the placeholder. -/
def renderMessage (m : MsgDoc) : String :=
  let sender := if m.fromMe then "Agent" else "Customer"
  let body :=
    match m.body with
    | some b => if b == "" then "[Media or empty message]" else b
    | none => "[Media or empty message]"
  "[" ++ sender ++ ": " ++ body ++ "]"

/-- `OllamaService.formatMessagesForLLM`: transcript lines joined with newlines. -/
def formatMessagesForLLM (msgs : List MsgDoc) : String :=
  String.intercalate "\n" (msgs.map renderMessage)

/-- Project configuration as used by `buildPrompt`. The `output_format` and
`example_analysis` payloads are opaque JSON used only through `JSON.stringify`
and a truthiness/non-emptiness guard, so they are modelled by their serialized
text, present exactly when the source guard passes. -/
structure ProjectConfig where
  name : String
  description : String
  domain : String
  instructions : List String
  fields : List (String × String)
  outputFormatJson : Option String
  exampleAnalysisJson : Option String
deriving DecidableEq, Repr

/-- `OllamaService.buildPrompt`: preamble, optional description/domain sections,
numbered instructions, bullet field list, serialized output format and examples,
then the transcript block and the final JSON-only instruction. -/
def buildPrompt (config : ProjectConfig) (conversation : String) : String :=
  let p := "You are an AI agent configured for: " ++ config.name ++ "\n\n"
  let p := p ++ (if config.description != "" then "Description: " ++ config.description ++ "\n\n" else "")
  let p := p ++ (if config.domain != "" then "Domain: " ++ config.domain ++ "\n\n" else "")
  let p := p ++
    (if config.instructions.length > 0 then
      "Instructions:\n" ++
        String.intercalate "\n"
          (config.instructions.enum.map (fun q => toString (q.1 + 1) ++ ". " ++ q.2)) ++ "\n\n"
     else "")
  let p := p ++
    (if config.fields.length > 0 then
      "Fields to analyze:\n" ++
        String.intercalate "\n" (config.fields.map (fun kv => "- " ++ kv.1 ++ ": " ++ kv.2)) ++ "\n\n"
     else "")
  let p := p ++
    (match config.outputFormatJson with
     | some t => "Output Format: " ++ t ++ "\n\n"
     | none => "")
  let p := p ++
    (match config.exampleAnalysisJson with
     | some t => "Example Analysis:\n" ++ t ++ "\n\n"
     | none => "")
  p ++ "\n---\n\nConversation to analyze:\n\n" ++ conversation ++
    "\n\n---\n\nPlease analyze this conversation according to the configuration above. IMPORTANT: Return ONLY a valid JSON object matching the Output Format. Do not include any markdown formatting or explanation."

/-- Ordering used by `.sort(\x7b timestamp: -1 \x7d)` on messages: descending timestamps. -/
def byMsgTsDesc (a b : MsgDoc) : Prop :=
  b.timestamp ≤ a.timestamp

instance : DecidableRel byMsgTsDesc :=
  fun a b => inferInstanceAs (Decidable (b.timestamp ≤ a.timestamp))

instance : IsTotal MsgDoc byMsgTsDesc :=
  ⟨fun a b => Nat.le_total b.timestamp a.timestamp⟩

instance : IsTrans MsgDoc byMsgTsDesc :=
  ⟨fun _ _ _ h1 h2 => Nat.le_trans h2 h1⟩

/-- `OllamaService.getConversationMessages`: non-deleted messages of the chat,
newest first, limited to `maxMessages`, then reversed to chronological order. -/
def getConversationMessages (msgStore : List MsgDoc) (chatId sessionId : String)
    (maxMessages : Nat) : List MsgDoc :=
  ((((msgStore.filter
      (fun m => m.chatId == chatId && m.sessionId == sessionId && !m.isDeleted)).insertionSort
      byMsgTsDesc).take maxMessages).reverse)

/-- The characters of the fence-open marker matched by the cleanup regex. -/
def fenceOpenChars : List Char := ['\x60', '\x60', '\x60', 'j', 's', 'o', 'n', '\n']

/-- The characters of the fence-close marker matched by the cleanup regex. -/
def fenceCloseChars : List Char := ['\n', '\x60', '\x60', '\x60']

/-- Global replacement of the regex alternation (fence-open | fence-close) by the
empty string: scan left to right, at each position prefer the fence-open marker,
never rescan replaced output (JavaScript `String.replace` with a /g regex). -/
def stripFences : List Char → List Char
  | '\x60' :: '\x60' :: '\x60' :: 'j' :: 's' :: 'o' :: 'n' :: '\n' :: rest => stripFences rest
  | '\n' :: '\x60' :: '\x60' :: '\x60' :: rest => stripFences rest
  | c :: cs => c :: stripFences cs
  | [] => []

/-- Neither fence marker occurs anywhere in the character list. -/
def fenceFreeB : List Char → Bool
  | '\x60' :: '\x60' :: '\x60' :: 'j' :: 's' :: 'o' :: 'n' :: '\n' :: _ => false
  | '\n' :: '\x60' :: '\x60' :: '\x60' :: _ => false
  | _ :: cs => fenceFreeB cs
  | [] => true

/-- The seven characters that, followed by a newline, form the fence-open
marker; relevant because the marker can form across an append boundary. -/
def jsonTailChars : List Char := ['\x60', '\x60', '\x60', 'j', 's', 'o', 'n']

/-- Whitespace recognized by `String.prototype.trim` (ASCII part). -/
def isTrimWhitespace (c : Char) : Bool :=
  c == ' ' || c == '\t' || c == '\n' || c == '\r' || c == '\x0b' || c == '\x0c'

/-- `.trim()`: drop leading and trailing whitespace characters. -/
def trimChars (l : List Char) : List Char :=
  ((l.dropWhile isTrimWhitespace).reverse.dropWhile isTrimWhitespace).reverse

/-- The markdown cleanup of `analyzeConversation`:
`analysisResult.replace(fenceRegex, '').trim()`. -/
def cleanResult (s : String) : String :=
  String.mk (trimChars (stripFences s.data))

/-- A reply consisting of content wrapped in fenced-code markers. -/
def wrapJsonFence (s : String) : String :=
  "\x60\x60\x60json\n" ++ s ++ "\n\x60\x60\x60"

/-- Result of the tolerant response parsing: a parsed object or the fallback
object with the original raw text and a fixed error message. -/
inductive ParseOutcome (α : Type) where
  | parsed (v : α)
  | fallback (raw : String) (error : String)
deriving DecidableEq, Repr

/-- The tolerant parse of `analyzeConversation` lines 179-197: direct JSON parse,
on failure one retry on the cleaned text, on repeated failure the fallback object
carrying the original reply. `parse` models `JSON.parse` (`none` = throw). -/
def parseWithRecovery (parse : String → Option α) (analysisResult : String) : ParseOutcome α :=
  match parse analysisResult with
  | some v => .parsed v
  | none =>
    match parse (cleanResult analysisResult) with
    | some v => .parsed v
    | none => .fallback analysisResult "Failed to parse JSON"

/-- An asynchronous computation that settles at `time` milliseconds with `result`. -/
structure PromiseSpec (α : Type) where
  time : Nat
  result : α
deriving DecidableEq, Repr

/-- `Promise.race`: settles as the earliest-settling entry (leftmost on ties);
an empty race never settles. -/
def promiseRace : List (PromiseSpec α) → Option (PromiseSpec α)
  | [] => none
  | p :: rest =>
    match promiseRace rest with
    | none => some p
    | some q => some (if p.time ≤ q.time then p else q)

/-- Failure modes of the inference call, with the timeout distinct from
transport and model errors. -/
inductive InferenceError where
  | timeout
  | transport (msg : String)
  | model (msg : String)
deriving DecidableEq, Repr

/-- The array passed to `Promise.race` in `OllamaService.analyzeConversation`
lines 153-174: it contains only the `ollama.chat` call. -/
def ollamaRaceEntries (chatCall : PromiseSpec (Except InferenceError String)) :
    List (PromiseSpec (Except InferenceError String)) :=
  [chatCall]

/-- The awaited inference step: `await Promise.race([this.ollama.chat(...)])`. -/
def ollamaChatAwait (chatCall : PromiseSpec (Except InferenceError String)) :
    Option (PromiseSpec (Except InferenceError String)) :=
  promiseRace (ollamaRaceEntries chatCall)

/-- `configService.get(key, default)` over an environment of numeric settings. -/
def configGetNat (env : List (String × Nat)) (key : String) (dflt : Nat) : Nat :=
  match env.lookup key with
  | some v => v
  | none => dflt

/-- The constructor's timeout setting: `OLLAMA_TIMEOUT`, default 60000 ms. -/
def ollamaTimeoutOf (env : List (String × Nat)) : Nat :=
  configGetNat env "OLLAMA_TIMEOUT" 60000

/-- Modelled from the spec: the race the spec describes, where a timer entry
rejecting with the Timeout error at `timeout` ms competes with the chat call.
No such timer entry exists in the source race. -/
def specTimeoutRace (chatCall : PromiseSpec (Except InferenceError String))
    (timeout : Nat) : Option (PromiseSpec (Except InferenceError String)) :=
  promiseRace [chatCall, { time := timeout, result := .error .timeout }]

/-- `OllamaService.analyzeConversation` as invoked by the orchestrator, with the
inference endpoint abstracted as `infer` (`.error` = thrown transport/model
failure) and `JSON.parse` abstracted as `parse`. Returns the produced analysis
value (or the propagated error) together with the number of inference calls made. -/
def ollamaAnalyzeConversation (parse : String → Option α) (infer : String → Except String String)
    (cfg : ProjectConfig) (msgStore : List MsgDoc) (chatId sessionId : String)
    (maxMessages : Nat) : Except String (OllamaAnalysis α) × Nat :=
  let messages := getConversationMessages msgStore chatId sessionId maxMessages
  if messages.length = 0 then
    (.ok .errNoMessages, 0)
  else
    let conversation := formatMessagesForLLM messages
    let prompt := buildPrompt cfg conversation
    match infer prompt with
    | .error e => (.error e, 1)
    | .ok content =>
      let analysisResult := if content == "" then "\x7b\x7d" else content
      match parseWithRecovery parse analysisResult with
      | .parsed v => (.ok (.parsed v), 1)
      | .fallback raw err => (.ok (.fallbackRaw raw err), 1)

/-- One document of the whatsapp-session collection, restricted to the fields
`getProjectConfig` reads. -/
structure SessionDoc where
  sessionId : String
  refId : Option String
deriving DecidableEq, Repr

/-- `ConversationsService.getProjectConfig`: resolve the session, fail soft
(null) when it is missing or has no project reference, otherwise fetch the
project over HTTP (a thrown HTTP error propagates). -/
def getProjectConfig (sessions : List SessionDoc) (http : String → Except String ProjectConfig)
    (sessionId : String) : Except String (Option ProjectConfig) :=
  match sessions.find? (fun s => s.sessionId == sessionId) with
  | none => .ok none
  | some s =>
    match s.refId with
    | none => .ok none
    | some refId =>
      match http refId with
      | .error e => .error e
      | .ok project => .ok (some project)

/-- `updateOne(\x7b chatId, sessionId \x7d, \x7b $set: ... \x7d)`: set `analysis`
and `lastAnalysisTimestamp` on the first matching chat document. -/
def updateChatAnalysis (chats : List (ChatDoc α)) (chatId sessionId : String)
    (a : OllamaAnalysis α) (now : Int) : List (ChatDoc α) :=
  match chats with
  | [] => []
  | c :: rest =>
    if c.chatId == chatId && c.sessionId == sessionId then
      { c with analysis := some a, lastAnalysisTimestamp := some now } :: rest
    else
      c :: updateChatAnalysis rest chatId sessionId a now

/-- The result envelope returned by `ConversationsService.analyzeConversation`. -/
structure AnalyzeEnvelope (α : Type) where
  success : Bool
  chatId : String
  analysis : OllamaAnalysis α
deriving DecidableEq, Repr

/-- `ConversationsService.analyzeConversation(sessionId, chatId)`: resolve the
project config (throwing when unresolvable), run the inference client, persist
the analysis with `lastAnalysisTimestamp := now` on the chat, and return the
success envelope. Second component counts inference endpoint calls. -/
def conversationsAnalyzeConversation (parse : String → Option α)
    (infer : String → Except String String) (sessions : List SessionDoc)
    (http : String → Except String ProjectConfig) (msgStore : List MsgDoc)
    (chats : List (ChatDoc α)) (sessionId chatId : String) (maxMessages : Nat)
    (now : Int) : Except String (AnalyzeEnvelope α × List (ChatDoc α)) × Nat :=
  match getProjectConfig sessions http sessionId with
  | .error e => (.error e, 0)
  | .ok none => (.error ("Could not retrieve project config for session " ++ sessionId), 0)
  | .ok (some projectConfig) =>
    match ollamaAnalyzeConversation parse infer projectConfig msgStore chatId sessionId maxMessages with
    | (.error e, n) => (.error e, n)
    | (.ok analysisResponse, n) =>
      (.ok ({ success := true, chatId := chatId, analysis := analysisResponse },
            updateChatAnalysis chats chatId sessionId analysisResponse now), n)

/-! Helper lemmas. -/

theorem ack_after_persist_of_two (x : AlertRow) :
    ∀ pre, pre <+: [ConsumerEvent.persisted x, ConsumerEvent.acked] →
      ConsumerEvent.acked ∈ pre → ∃ a, ConsumerEvent.persisted a ∈ pre := by
  intro pre hpre hack
  obtain ⟨t, ht⟩ := hpre
  cases pre with
  | nil => cases hack
  | cons y ys =>
    have ht2 : y :: (ys ++ t) = [ConsumerEvent.persisted x, ConsumerEvent.acked] := ht
    cases ys with
    | nil =>
      injection ht2 with h1 h2
      subst h1
      simp at hack
    | cons z zs =>
      injection ht2 with h1 h2
      subst h1
      exact ⟨x, List.mem_cons_self _ _⟩

/-! Claim theorems for the alert ingestion pipeline. -/

/-- C2 counterexample: the disconnected handler performs no missing-field
validation. A disconnected payload with both `session` and `sessionId` absent
is not dropped: when the insert succeeds the handler persists one alert row
(with a freshly generated ObjectId and no sessionId) and acknowledges, and when
the insert throws it negatively acknowledges with requeue=true. -/
theorem disconnected_malformed_not_dropped :
    (alertsOf (handleDisconnectedAlert .succeeds
      { session := none, sessionId := none, type := .disconnected, message := none,
        messageId := none, chatId := none, timestamp := none })).length = 1 ∧
    handleDisconnectedAlert .fails
      { session := none, sessionId := none, type := .disconnected, message := none,
        messageId := none, chatId := none, timestamp := none } =
      [.nacked false true] := by
  decide

/-- C2 (amended): for the three alert types that are validated
(message_deleted, message_edited, chat_removed), any payload with a falsy
required field is dropped: the handler creates zero alert rows and issues a
single ack, never a nack, whatever the store would do. -/
theorem malformed_payload_dropped_for_validated_types :
    ∀ (store : StoreBehavior) (p : AlertPayload),
      ((truthyStr p.messageId && truthyStr p.chatId && truthyNum p.timestamp) = false →
        handleMessageDeletedAlert store p = [.warned, .acked] ∧
        alertsOf (handleMessageDeletedAlert store p) = [] ∧
        handleMessageEditedAlert store p = [.warned, .acked] ∧
        alertsOf (handleMessageEditedAlert store p) = []) ∧
      ((truthyStr p.chatId && truthyNum p.timestamp) = false →
        handleChatRemovedAlert store p = [.warned, .acked] ∧
        alertsOf (handleChatRemovedAlert store p) = []) := by
  intro store p
  constructor
  · intro h
    refine ⟨?_, ?_, ?_, ?_⟩ <;> simp [handleMessageDeletedAlert, handleMessageEditedAlert, h, alertsOf]
  · intro h
    refine ⟨?_, ?_⟩ <;> simp [handleChatRemovedAlert, h, alertsOf]

/-- C2 witness: a message_deleted payload missing its messageId is dropped
with zero alert rows even when the store would fail the insert. -/
theorem malformed_payload_dropped_witness :
    (truthyStr (none : Option String) && truthyStr (some "chat") && truthyNum (some 3)) = false ∧
    handleMessageDeletedAlert .fails
      { session := some "0123456789abcdef01234567", sessionId := some "s", type := .message_deleted,
        message := none, messageId := none, chatId := some "chat", timestamp := some 3 } =
      [.warned, .acked] ∧
    alertsOf (handleMessageDeletedAlert .fails
      { session := some "0123456789abcdef01234567", sessionId := some "s", type := .message_deleted,
        message := none, messageId := none, chatId := some "chat", timestamp := some 3 }) = [] := by
  refine ⟨by decide, ?_, ?_⟩
  · exact (((malformed_payload_dropped_for_validated_types .fails
      { session := some "0123456789abcdef01234567", sessionId := some "s", type := .message_deleted,
        message := none, messageId := none, chatId := some "chat", timestamp := some 3 }).1
        (by decide)).1)
  · exact (((malformed_payload_dropped_for_validated_types .fails
      { session := some "0123456789abcdef01234567", sessionId := some "s", type := .message_deleted,
        message := none, messageId := none, chatId := some "chat", timestamp := some 3 }).1
        (by decide)).2.1)

/-- C4: for every alert type, when the insert of the alert row throws, the
handler's trace is exactly one negative acknowledgment with requeue=true and
no alert row is created. -/
theorem persistence_failure_nack_requeue :
    ∀ (p : AlertPayload) (oid : OId), makeObjectId p.session = .ok oid →
      (handleDisconnectedAlert .fails p = [.nacked false true] ∧
        alertsOf (handleDisconnectedAlert .fails p) = []) ∧
      ((truthyStr p.messageId && truthyStr p.chatId && truthyNum p.timestamp) = true →
        handleMessageDeletedAlert .fails p = [.nacked false true] ∧
        alertsOf (handleMessageDeletedAlert .fails p) = [] ∧
        handleMessageEditedAlert .fails p = [.nacked false true] ∧
        alertsOf (handleMessageEditedAlert .fails p) = []) ∧
      ((truthyStr p.chatId && truthyNum p.timestamp) = true →
        handleChatRemovedAlert .fails p = [.nacked false true] ∧
        alertsOf (handleChatRemovedAlert .fails p) = []) := by
  intro p oid h
  refine ⟨⟨?_, ?_⟩, fun hv => ⟨?_, ?_, ?_, ?_⟩, fun hv => ⟨?_, ?_⟩⟩ <;>
    simp [handleDisconnectedAlert, handleMessageDeletedAlert, handleMessageEditedAlert,
      handleChatRemovedAlert, h, alertsOf, *]

/-- C4 witness: a valid message_deleted payload whose insert throws is nacked
with requeue and creates no row. -/
theorem persistence_failure_nack_requeue_witness :
    makeObjectId (some "0123456789abcdef01234567") = .ok (.ofString "0123456789abcdef01234567") ∧
    handleMessageDeletedAlert .fails
      { session := some "0123456789abcdef01234567", sessionId := some "s", type := .message_deleted,
        message := none, messageId := some "m", chatId := some "c", timestamp := some 9 } =
      [.nacked false true] := by
  refine ⟨by rfl, ?_⟩
  exact ((persistence_failure_nack_requeue
    { session := some "0123456789abcdef01234567", sessionId := some "s", type := .message_deleted,
      message := none, messageId := some "m", chatId := some "c", timestamp := some 9 }
    (.ofString "0123456789abcdef01234567") (by rfl)).2.1 (by decide)).1

/-- C5: a valid message_deleted or message_edited payload (required fields
truthy, session accepted by the ObjectId constructor) with a successful insert
produces a trace consisting of exactly one persisted alert row followed by
exactly one ack and no nack, and every prefix of the trace containing the ack
already contains the persisted row. -/
theorem valid_message_alert_single_persist_then_ack :
    ∀ (p : AlertPayload) (oid : OId), makeObjectId p.session = .ok oid →
      truthyStr p.messageId = true → truthyStr p.chatId = true → truthyNum p.timestamp = true →
      (handleMessageDeletedAlert .succeeds p =
          [.persisted (createMessageDeletedAlert oid p.sessionId (p.messageId.getD "")
            (p.chatId.getD "") (p.timestamp.getD 0) p.message), .acked] ∧
        (alertsOf (handleMessageDeletedAlert .succeeds p)).length = 1 ∧
        ackCount (handleMessageDeletedAlert .succeeds p) = 1 ∧
        nackCount (handleMessageDeletedAlert .succeeds p) = 0 ∧
        (∀ pre, pre <+: handleMessageDeletedAlert .succeeds p →
          ConsumerEvent.acked ∈ pre → ∃ a, ConsumerEvent.persisted a ∈ pre)) ∧
      (handleMessageEditedAlert .succeeds p =
          [.persisted (createMessageEditedAlert oid p.sessionId (p.messageId.getD "")
            (p.chatId.getD "") (p.timestamp.getD 0) p.message), .acked] ∧
        (alertsOf (handleMessageEditedAlert .succeeds p)).length = 1 ∧
        ackCount (handleMessageEditedAlert .succeeds p) = 1 ∧
        nackCount (handleMessageEditedAlert .succeeds p) = 0 ∧
        (∀ pre, pre <+: handleMessageEditedAlert .succeeds p →
          ConsumerEvent.acked ∈ pre → ∃ a, ConsumerEvent.persisted a ∈ pre)) := by
  intro p oid h hm hc ht
  have hdel : handleMessageDeletedAlert .succeeds p =
      [.persisted (createMessageDeletedAlert oid p.sessionId (p.messageId.getD "")
        (p.chatId.getD "") (p.timestamp.getD 0) p.message), .acked] := by
    simp [handleMessageDeletedAlert, h, hm, hc, ht]
  have hedi : handleMessageEditedAlert .succeeds p =
      [.persisted (createMessageEditedAlert oid p.sessionId (p.messageId.getD "")
        (p.chatId.getD "") (p.timestamp.getD 0) p.message), .acked] := by
    simp [handleMessageEditedAlert, h, hm, hc, ht]
  refine ⟨⟨hdel, ?_, ?_, ?_, ?_⟩, ⟨hedi, ?_, ?_, ?_, ?_⟩⟩
  · rw [hdel]; rfl
  · rw [hdel]; rfl
  · rw [hdel]; rfl
  · rw [hdel]; exact ack_after_persist_of_two _
  · rw [hedi]; rfl
  · rw [hedi]; rfl
  · rw [hedi]; rfl
  · rw [hedi]; exact ack_after_persist_of_two _

/-- C5 witness: a concrete valid message_deleted payload yields exactly the
persist-then-ack trace. -/
theorem valid_message_alert_single_persist_then_ack_witness :
    makeObjectId (some "0123456789abcdef01234567") = .ok (.ofString "0123456789abcdef01234567") ∧
    handleMessageDeletedAlert .succeeds
      { session := some "0123456789abcdef01234567", sessionId := some "s", type := .message_deleted,
        message := none, messageId := some "m", chatId := some "c", timestamp := some 9 } =
      [.persisted (createMessageDeletedAlert (.ofString "0123456789abcdef01234567") (some "s")
        "m" "c" 9 none), .acked] := by
  refine ⟨by rfl, ?_⟩
  exact ((valid_message_alert_single_persist_then_ack
    { session := some "0123456789abcdef01234567", sessionId := some "s", type := .message_deleted,
      message := none, messageId := some "m", chatId := some "c", timestamp := some 9 }
    (.ofString "0123456789abcdef01234567") (by rfl) (by decide) (by decide) (by decide)).1).1

/-! Claim theorems for the scheduling loop. -/

theorem runScheduledBatch_map_fst (analyze : ChatDoc α → σ → Except String σ) :
    ∀ (chats : List (ChatDoc α)) (s : σ),
      (runScheduledBatch analyze chats s).2.map Prod.fst = chats := by
  intro chats
  induction chats with
  | nil => intro s; rfl
  | cons c rest ih =>
    intro s
    cases h : analyze c s with
    | ok s1 => simp [runScheduledBatch, h, ih]
    | error e => simp [runScheduledBatch, h, ih]

/-- C7: the per-candidate try/catch isolates failures. Every selected candidate
of a batch is processed exactly once whatever the analysis outcomes are, and a
candidate whose analysis throws is recorded as failed while the batch continues
with the remaining candidates from the unchanged store state. -/
theorem batch_partial_failure_isolation :
    ∀ (α σ : Type) (analyze : ChatDoc α → σ → Except String σ)
      (chats : List (ChatDoc α)) (s : σ),
      ((runScheduledBatch analyze chats s).2.map Prod.fst = chats) ∧
      ((runScheduledBatch analyze chats s).2.length = chats.length) ∧
      (∀ (c : ChatDoc α) (rest : List (ChatDoc α)) (e : String),
        analyze c s = .error e →
        (runScheduledBatch analyze (c :: rest) s).2 =
          (c, false) :: (runScheduledBatch analyze rest s).2 ∧
        (runScheduledBatch analyze (c :: rest) s).1 =
          (runScheduledBatch analyze rest s).1) := by
  intro α σ analyze chats s
  refine ⟨runScheduledBatch_map_fst analyze chats s, ?_, ?_⟩
  · have h := runScheduledBatch_map_fst analyze chats s
    calc (runScheduledBatch analyze chats s).2.length
        = ((runScheduledBatch analyze chats s).2.map Prod.fst).length := by
          rw [List.length_map]
      _ = chats.length := by rw [h]
  · intro c rest e he
    constructor <;> simp [runScheduledBatch, he]

/-- C7 witness: with a concrete analyzer that throws on the first candidate,
the batch still processes the second candidate. -/
theorem batch_partial_failure_isolation_witness :
    (fun (c : ChatDoc Unit) (n : Nat) =>
        if c.lastMessageTimestamp = 0 then (Except.error "boom" : Except String Nat)
        else .ok (n + 1))
      { chatId := "a", sessionId := "s", lastMessage := some "hi", lastMessageTimestamp := 0,
        lastAnalysisTimestamp := none, analysis := none } 0 = .error "boom" ∧
    (runScheduledBatch
      (fun (c : ChatDoc Unit) (n : Nat) =>
        if c.lastMessageTimestamp = 0 then (Except.error "boom" : Except String Nat)
        else .ok (n + 1))
      ({ chatId := "a", sessionId := "s", lastMessage := some "hi", lastMessageTimestamp := 0,
         lastAnalysisTimestamp := none, analysis := none } ::
       [{ chatId := "b", sessionId := "s", lastMessage := some "yo", lastMessageTimestamp := 1,
          lastAnalysisTimestamp := none, analysis := none }]) 0).2 =
      ({ chatId := "a", sessionId := "s", lastMessage := some "hi", lastMessageTimestamp := 0,
         lastAnalysisTimestamp := none, analysis := none }, false) ::
      (runScheduledBatch
        (fun (c : ChatDoc Unit) (n : Nat) =>
          if c.lastMessageTimestamp = 0 then (Except.error "boom" : Except String Nat)
          else .ok (n + 1))
        [{ chatId := "b", sessionId := "s", lastMessage := some "yo", lastMessageTimestamp := 1,
           lastAnalysisTimestamp := none, analysis := none }] 0).2 := by
  refine ⟨by rfl, ?_⟩
  exact ((batch_partial_failure_isolation Unit Nat
    (fun (c : ChatDoc Unit) (n : Nat) =>
      if c.lastMessageTimestamp = 0 then (Except.error "boom" : Except String Nat)
      else .ok (n + 1))
    ({ chatId := "a", sessionId := "s", lastMessage := some "hi", lastMessageTimestamp := 0,
       lastAnalysisTimestamp := none, analysis := none } ::
     [{ chatId := "b", sessionId := "s", lastMessage := some "yo", lastMessageTimestamp := 1,
        lastAnalysisTimestamp := none, analysis := none }]) 0).2.2
    { chatId := "a", sessionId := "s", lastMessage := some "hi", lastMessageTimestamp := 0,
      lastAnalysisTimestamp := none, analysis := none }
    [{ chatId := "b", sessionId := "s", lastMessage := some "yo", lastMessageTimestamp := 1,
       lastAnalysisTimestamp := none, analysis := none }] "boom" (by rfl)).1

theorem peakAux_seq_le (chats : List (ChatDoc α)) :
    peakAux (scheduledBatchTrace chats) 0 ≤ 1 := by
  induction chats with
  | nil => simp [scheduledBatchTrace, peakAux]
  | cons c rest ih =>
    show peakAux (.started c :: .finished c :: scheduledBatchTrace rest) 0 ≤ 1
    simp only [peakAux]
    rw [Nat.max_le]
    exact ⟨le_refl 1, by simpa using ih⟩

/-- C9 counterexample: the cron loop awaits each analysis before dispatching
the next, so with three pending candidates at most one analysis is ever in
flight, whereas a dispatcher with concurrency limit 2 (resp. 3) would have 2
(resp. 3) analyses in flight at some point. -/
theorem batch_dispatch_sequential_not_concurrent :
    peakInFlight (scheduledBatchTrace
      [({ chatId := "a", sessionId := "s", lastMessage := some "1", lastMessageTimestamp := 3,
          lastAnalysisTimestamp := none, analysis := none } : ChatDoc Unit),
       { chatId := "b", sessionId := "s", lastMessage := some "2", lastMessageTimestamp := 2,
          lastAnalysisTimestamp := none, analysis := none },
       { chatId := "c", sessionId := "s", lastMessage := some "3", lastMessageTimestamp := 1,
          lastAnalysisTimestamp := none, analysis := none }]) = 1 ∧
    peakInFlight (specPoolPrefix 2
      [({ chatId := "a", sessionId := "s", lastMessage := some "1", lastMessageTimestamp := 3,
          lastAnalysisTimestamp := none, analysis := none } : ChatDoc Unit),
       { chatId := "b", sessionId := "s", lastMessage := some "2", lastMessageTimestamp := 2,
          lastAnalysisTimestamp := none, analysis := none },
       { chatId := "c", sessionId := "s", lastMessage := some "3", lastMessageTimestamp := 1,
          lastAnalysisTimestamp := none, analysis := none }]) = 2 ∧
    peakInFlight (specPoolPrefix 3
      [({ chatId := "a", sessionId := "s", lastMessage := some "1", lastMessageTimestamp := 3,
          lastAnalysisTimestamp := none, analysis := none } : ChatDoc Unit),
       { chatId := "b", sessionId := "s", lastMessage := some "2", lastMessageTimestamp := 2,
          lastAnalysisTimestamp := none, analysis := none },
       { chatId := "c", sessionId := "s", lastMessage := some "3", lastMessageTimestamp := 1,
          lastAnalysisTimestamp := none, analysis := none }]) = 3 ∧
    (1 : Nat) < 2 := by
  refine ⟨by rfl, by rfl, by rfl, by decide⟩

/-- C9 (amended): candidate analyses within one tick are dispatched strictly
sequentially; at no point is more than one inference request in flight for the
batch. -/
theorem batch_dispatch_at_most_one_in_flight :
    ∀ (α : Type) (chats : List (ChatDoc α)),
      peakInFlight (scheduledBatchTrace chats) ≤ 1 := by
  intro α chats
  exact peakAux_seq_le chats

/-! Claim theorem for the inference timeout. -/

/-- C1: the race in `analyzeConversation` contains only the chat call — no
timer entry — so an invocation settling at 60001 ms under the default 60000 ms
`OLLAMA_TIMEOUT` still settles with the chat result; indeed every race settles
with the chat call itself and never with the Timeout error, while the race the
spec describes would settle with the Timeout error at that input. -/
theorem ollama_race_lacks_timeout :
    ollamaTimeoutOf [] = 60000 ∧
    ollamaRaceEntries { time := 60001, result := Except.ok "reply" } =
      [{ time := 60001, result := Except.ok "reply" }] ∧
    ollamaChatAwait { time := 60001, result := Except.ok "reply" } =
      some { time := 60001, result := Except.ok "reply" } ∧
    (∀ chatCall, ollamaChatAwait chatCall = some chatCall) ∧
    specTimeoutRace { time := 60001, result := Except.ok "reply" } 60000 =
      some { time := 60000, result := Except.error InferenceError.timeout } := by
  refine ⟨rfl, rfl, rfl, fun _ => rfl, ?_⟩
  simp [specTimeoutRace, promiseRace]

/-! Claim theorems for candidate selection. -/

theorem mem_selectCandidates {α : Type} {chats : List (ChatDoc α)} {c : ChatDoc α}
    (h : c ∈ selectCandidates chats) : c ∈ chats ∧ needsAnalysis c = true := by
  unfold selectCandidates at h
  have h1 : c ∈ (chats.filter needsAnalysis).insertionSort byTsDesc :=
    (List.take_sublist _ _).subset h
  have h2 : c ∈ chats.filter needsAnalysis := (List.mem_insertionSort byTsDesc).mp h1
  exact List.mem_filter.mp h2

/-- C6 counterexample: with 31 conversations all having a null
`lastAnalysisTimestamp` and a non-empty `lastMessage`, the one with the oldest
`lastMessageTimestamp` matches the selection criteria yet is not selected,
because the batch cap keeps only the 30 most recent matches. -/
theorem candidate_selection_cap_excludes_candidate :
    (ChatDoc.lastAnalysisTimestamp
        ({ chatId := "c", sessionId := "s", lastMessage := some "m",
           lastMessageTimestamp := 0, lastAnalysisTimestamp := none,
           analysis := none } : ChatDoc Unit) = none) ∧
    (truthyStr (ChatDoc.lastMessage
        ({ chatId := "c", sessionId := "s", lastMessage := some "m",
           lastMessageTimestamp := 0, lastAnalysisTimestamp := none,
           analysis := none } : ChatDoc Unit)) = true) ∧
    (({ chatId := "c", sessionId := "s", lastMessage := some "m",
        lastMessageTimestamp := 0, lastAnalysisTimestamp := none,
        analysis := none } : ChatDoc Unit) ∈
      (List.range 31).map (fun i =>
        ({ chatId := "c", sessionId := "s", lastMessage := some "m",
           lastMessageTimestamp := (i : Int), lastAnalysisTimestamp := none,
           analysis := none } : ChatDoc Unit))) ∧
    (({ chatId := "c", sessionId := "s", lastMessage := some "m",
        lastMessageTimestamp := 0, lastAnalysisTimestamp := none,
        analysis := none } : ChatDoc Unit) ∉
      selectCandidates ((List.range 31).map (fun i =>
        ({ chatId := "c", sessionId := "s", lastMessage := some "m",
           lastMessageTimestamp := (i : Int), lastAnalysisTimestamp := none,
           analysis := none } : ChatDoc Unit)))) := by
  refine ⟨rfl, rfl, by decide, by decide⟩

/-- C6 (amended): the selection returns only conversations matching the query
criteria, in descending `lastMessageTimestamp` order, capped at 30; a
conversation with null `lastAnalysisTimestamp` and non-empty `lastMessage`
always matches the criteria and is selected whenever at most 30 conversations
match; a conversation with `lastAnalysisTimestamp ≥ lastMessageTimestamp` is
never selected. -/
theorem candidate_selection_characterization :
    ∀ (α : Type) (chats : List (ChatDoc α)),
      (∀ c, c ∈ selectCandidates chats → c ∈ chats ∧ needsAnalysis c = true) ∧
      List.Pairwise byTsDesc (selectCandidates chats) ∧
      (selectCandidates chats).length = min 30 (chats.filter needsAnalysis).length ∧
      (∀ c : ChatDoc α, c.lastAnalysisTimestamp = none → truthyStr c.lastMessage = true →
        needsAnalysis c = true) ∧
      ((chats.filter needsAnalysis).length ≤ 30 →
        ∀ c, c ∈ chats → needsAnalysis c = true → c ∈ selectCandidates chats) ∧
      (∀ c a, c.lastAnalysisTimestamp = some a → c.lastMessageTimestamp ≤ a →
        c ∉ selectCandidates chats) := by
  intro α chats
  refine ⟨fun c h => mem_selectCandidates h, ?_, ?_, ?_, ?_, ?_⟩
  · exact List.Pairwise.sublist (List.take_sublist _ _)
      (List.sorted_insertionSort byTsDesc _)
  · unfold selectCandidates
    rw [List.length_take, List.length_insertionSort]
  · intro c h1 h2
    unfold needsAnalysis
    rw [h1]
    unfold truthyStr at h2
    cases hm : c.lastMessage with
    | none => rw [hm] at h2; cases h2
    | some s => rw [hm] at h2; simp at h2 ⊢; exact h2
  · intro hlen c hc hna
    unfold selectCandidates
    have hmem : c ∈ chats.filter needsAnalysis := List.mem_filter.mpr ⟨hc, hna⟩
    have hlen2 : ((chats.filter needsAnalysis).insertionSort byTsDesc).length ≤ 30 := by
      rw [List.length_insertionSort]; exact hlen
    rw [List.take_of_length_le hlen2]
    exact (List.mem_insertionSort byTsDesc).mpr hmem
  · intro c a ha hle hmem
    have h2 := (mem_selectCandidates hmem).2
    unfold needsAnalysis at h2
    rw [ha] at h2
    rw [Bool.and_eq_true] at h2
    have h3 := h2.2
    simp at h3
    omega

/-- C6 witness: on a concrete two-conversation store, the conversation with a
null analysis timestamp is selected and the already-analyzed one is not. -/
theorem candidate_selection_characterization_witness :
    (([({ chatId := "a", sessionId := "s", lastMessage := some "hi",
          lastMessageTimestamp := 5, lastAnalysisTimestamp := none,
          analysis := none } : ChatDoc Unit),
        ({ chatId := "b", sessionId := "s", lastMessage := some "yo",
           lastMessageTimestamp := 4, lastAnalysisTimestamp := some 9,
           analysis := none } : ChatDoc Unit)].filter needsAnalysis).length ≤ 30) ∧
    (({ chatId := "a", sessionId := "s", lastMessage := some "hi",
        lastMessageTimestamp := 5, lastAnalysisTimestamp := none,
        analysis := none } : ChatDoc Unit) ∈
      selectCandidates
        [({ chatId := "a", sessionId := "s", lastMessage := some "hi",
            lastMessageTimestamp := 5, lastAnalysisTimestamp := none,
            analysis := none } : ChatDoc Unit),
         ({ chatId := "b", sessionId := "s", lastMessage := some "yo",
            lastMessageTimestamp := 4, lastAnalysisTimestamp := some 9,
            analysis := none } : ChatDoc Unit)]) ∧
    (({ chatId := "b", sessionId := "s", lastMessage := some "yo",
        lastMessageTimestamp := 4, lastAnalysisTimestamp := some 9,
        analysis := none } : ChatDoc Unit) ∉
      selectCandidates
        [({ chatId := "a", sessionId := "s", lastMessage := some "hi",
            lastMessageTimestamp := 5, lastAnalysisTimestamp := none,
            analysis := none } : ChatDoc Unit),
         ({ chatId := "b", sessionId := "s", lastMessage := some "yo",
            lastMessageTimestamp := 4, lastAnalysisTimestamp := some 9,
            analysis := none } : ChatDoc Unit)]) := by
  refine ⟨by decide, ?_, ?_⟩
  · exact (candidate_selection_characterization Unit
      [{ chatId := "a", sessionId := "s", lastMessage := some "hi",
         lastMessageTimestamp := 5, lastAnalysisTimestamp := none, analysis := none },
       { chatId := "b", sessionId := "s", lastMessage := some "yo",
         lastMessageTimestamp := 4, lastAnalysisTimestamp := some 9,
         analysis := none }]).2.2.2.2.1 (by decide)
      { chatId := "a", sessionId := "s", lastMessage := some "hi",
        lastMessageTimestamp := 5, lastAnalysisTimestamp := none, analysis := none }
      (by decide) (by decide)
  · exact (candidate_selection_characterization Unit
      [{ chatId := "a", sessionId := "s", lastMessage := some "hi",
         lastMessageTimestamp := 5, lastAnalysisTimestamp := none, analysis := none },
       { chatId := "b", sessionId := "s", lastMessage := some "yo",
         lastMessageTimestamp := 4, lastAnalysisTimestamp := some 9,
         analysis := none }]).2.2.2.2.2
      { chatId := "b", sessionId := "s", lastMessage := some "yo",
        lastMessageTimestamp := 4, lastAnalysisTimestamp := some 9, analysis := none }
      9 (by decide) (by decide)

/-! Claim theorems for the prompt builder. -/

/-- C8: prompt construction is a pure function of the project configuration and
the message list — identical inputs give identical (byte-identical) strings and
nothing else flows into the text — the transcript renders self-sent messages as
[Agent: body] and others as [Customer: body], and a falsy body renders as the
placeholder. -/
theorem prompt_builder_deterministic :
    (∀ (cfg1 cfg2 : ProjectConfig) (conv1 conv2 : String), cfg1 = cfg2 → conv1 = conv2 →
      buildPrompt cfg1 conv1 = buildPrompt cfg2 conv2) ∧
    (∀ (msgs1 msgs2 : List MsgDoc), msgs1 = msgs2 →
      formatMessagesForLLM msgs1 = formatMessagesForLLM msgs2) ∧
    (∀ (m : MsgDoc) (b : String), m.fromMe = true → m.body = some b → b ≠ "" →
      renderMessage m = "[Agent: " ++ b ++ "]") ∧
    (∀ (m : MsgDoc) (b : String), m.fromMe = false → m.body = some b → b ≠ "" →
      renderMessage m = "[Customer: " ++ b ++ "]") ∧
    (∀ m : MsgDoc, m.body = none →
      renderMessage m =
        (if m.fromMe then "[Agent: [Media or empty message]]"
         else "[Customer: [Media or empty message]]")) ∧
    (∀ msgs : List MsgDoc,
      formatMessagesForLLM msgs = String.intercalate "\n" (msgs.map renderMessage)) := by
  refine ⟨?_, ?_, ?_, ?_, ?_, ?_⟩
  · intro cfg1 cfg2 conv1 conv2 h1 h2; rw [h1, h2]
  · intro msgs1 msgs2 h; rw [h]
  · intro m b hfm hb hbne
    unfold renderMessage
    rw [hfm, hb]
    have hbeq : (b == "") = false := by
      simpa using hbne
    simp only [if_true, hbeq, if_false, Bool.false_eq_true]
    rfl
  · intro m b hfm hb hbne
    unfold renderMessage
    rw [hfm, hb]
    have hbeq : (b == "") = false := by
      simpa using hbne
    simp only [if_false, hbeq, Bool.false_eq_true]
    rfl
  · intro m hb
    unfold renderMessage
    rw [hb]
    cases hfm : m.fromMe <;> simp
  · intro msgs; rfl

/-- C8 witness: a concrete self-sent message with a body renders as an Agent
line. -/
theorem prompt_builder_deterministic_witness :
    MsgDoc.fromMe
      { chatId := "c", sessionId := "s", fromMe := true, timestamp := 3,
        body := some "hello", isDeleted := false } = true ∧
    renderMessage
      { chatId := "c", sessionId := "s", fromMe := true, timestamp := 3,
        body := some "hello", isDeleted := false } = "[Agent: hello]" := by
  refine ⟨rfl, ?_⟩
  have h := prompt_builder_deterministic.2.2.1
    { chatId := "c", sessionId := "s", fromMe := true, timestamp := 3,
      body := some "hello", isDeleted := false } "hello" rfl rfl (by decide)
  simpa using h

/-! Claim theorems for the zero-message analysis path. -/

theorem updateChatAnalysis_find (chats : List (ChatDoc α)) (chatId sessionId : String)
    (a : OllamaAnalysis α) (now : Int) :
    (updateChatAnalysis chats chatId sessionId a now).find?
        (fun c => c.chatId == chatId && c.sessionId == sessionId) =
      (chats.find? (fun c => c.chatId == chatId && c.sessionId == sessionId)).map
        (fun c => { c with analysis := some a, lastAnalysisTimestamp := some now }) := by
  induction chats with
  | nil => rfl
  | cons c rest ih =>
    by_cases h : (c.chatId == chatId && c.sessionId == sessionId) = true
    · have h2 : ((({ c with analysis := some a, lastAnalysisTimestamp := some now } :
          ChatDoc α).chatId == chatId) &&
          (({ c with analysis := some a, lastAnalysisTimestamp := some now } :
          ChatDoc α).sessionId == sessionId)) = true := h
      simp [updateChatAnalysis, h, List.find?_cons_of_pos, h2]
    · have hb : (c.chatId == chatId && c.sessionId == sessionId) = false := by
        exact Bool.not_eq_true _ ▸ (by simpa using h)
      simp [updateChatAnalysis, hb, List.find?_cons_of_neg, ih]

/-- C10: when the project configuration resolves but the conversation has no
stored non-deleted messages, the inference endpoint is called zero times, the
produced analysis is the no-messages error object, the orchestrator still
persists it with `lastAnalysisTimestamp := now` onto the matching chat, and the
caller receives the success envelope carrying that object. -/
theorem empty_conversation_analysis :
    ∀ (α : Type) (parse : String → Option α) (infer : String → Except String String)
      (sessions : List SessionDoc) (http : String → Except String ProjectConfig)
      (msgStore : List MsgDoc) (chats : List (ChatDoc α)) (sessionId chatId : String)
      (maxMessages : Nat) (now : Int) (cfg : ProjectConfig),
      getProjectConfig sessions http sessionId = .ok (some cfg) →
      msgStore.filter
        (fun m => m.chatId == chatId && m.sessionId == sessionId && !m.isDeleted) = [] →
      conversationsAnalyzeConversation parse infer sessions http msgStore chats
          sessionId chatId maxMessages now =
        (.ok ({ success := true, chatId := chatId, analysis := .errNoMessages },
          updateChatAnalysis chats chatId sessionId .errNoMessages now), 0) ∧
      (updateChatAnalysis chats chatId sessionId .errNoMessages now).find?
          (fun c => c.chatId == chatId && c.sessionId == sessionId) =
        (chats.find? (fun c => c.chatId == chatId && c.sessionId == sessionId)).map
          (fun c =>
            { c with
              analysis := some .errNoMessages,
              lastAnalysisTimestamp := some now }) := by
  intro α parse infer sessions http msgStore chats sessionId chatId maxMessages now cfg hcfg hfil
  constructor
  · unfold conversationsAnalyzeConversation
    rw [hcfg]
    unfold ollamaAnalyzeConversation getConversationMessages
    rw [hfil]
    simp
  · exact updateChatAnalysis_find chats chatId sessionId .errNoMessages now

/-- C10 witness: a concrete empty conversation with a resolvable configuration
produces the no-messages object, zero inference calls and the success envelope. -/
theorem empty_conversation_analysis_witness :
    getProjectConfig [{ sessionId := "s", refId := some "r" }]
      (fun _ => .ok
        { name := "n", description := "", domain := "", instructions := [],
          fields := [], outputFormatJson := none, exampleAnalysisJson := none }) "s" =
      .ok (some
        { name := "n", description := "", domain := "", instructions := [],
          fields := [], outputFormatJson := none, exampleAnalysisJson := none }) ∧
    conversationsAnalyzeConversation (fun _ => (none : Option Nat))
      (fun _ => .ok "reply") [{ sessionId := "s", refId := some "r" }]
      (fun _ => .ok
        { name := "n", description := "", domain := "", instructions := [],
          fields := [], outputFormatJson := none, exampleAnalysisJson := none })
      []
      [{ chatId := "c", sessionId := "s", lastMessage := some "hi",
         lastMessageTimestamp := 5, lastAnalysisTimestamp := none, analysis := none }]
      "s" "c" 50 77 =
      (.ok ({ success := true, chatId := "c", analysis := .errNoMessages },
        updateChatAnalysis
          [{ chatId := "c", sessionId := "s", lastMessage := some "hi",
             lastMessageTimestamp := 5, lastAnalysisTimestamp := none, analysis := none }]
          "c" "s" .errNoMessages 77), 0) := by
  refine ⟨by rfl, ?_⟩
  exact (empty_conversation_analysis Nat (fun _ => none) (fun _ => .ok "reply")
    [{ sessionId := "s", refId := some "r" }]
    (fun _ => .ok
      { name := "n", description := "", domain := "", instructions := [],
        fields := [], outputFormatJson := none, exampleAnalysisJson := none })
    []
    [{ chatId := "c", sessionId := "s", lastMessage := some "hi",
       lastMessageTimestamp := 5, lastAnalysisTimestamp := none, analysis := none }]
    "s" "c" 50 77
    { name := "n", description := "", domain := "", instructions := [],
      fields := [], outputFormatJson := none, exampleAnalysisJson := none }
    (by rfl) (by rfl)).1

/-! Helper lemmas for the tolerant JSON recovery. -/

theorem string_mk_data (s : String) : String.mk s.data = s := rfl

theorem string_data_append (a b : String) : (a ++ b).data = a.data ++ b.data := rfl

theorem stripFences_open_prefix (rest : List Char) :
    stripFences (fenceOpenChars ++ rest) = stripFences rest := rfl

theorem fenceFreeB_open_prefix (rest : List Char) :
    fenceFreeB (fenceOpenChars ++ rest) = false := rfl

theorem fenceFreeB_close_prefix (rest : List Char) :
    fenceFreeB (fenceCloseChars ++ rest) = false := rfl

theorem stripFences_cons_of_ne (c : Char) (cs : List Char)
    (h1 : ∀ rest, c :: cs ≠ fenceOpenChars ++ rest)
    (h2 : ∀ rest, c :: cs ≠ fenceCloseChars ++ rest) :
    stripFences (c :: cs) = c :: stripFences cs := by
  rw [stripFences.eq_def]
  split
  case h_1 x rest heq => exact absurd heq (h1 rest)
  case h_2 x rest heq => exact absurd heq (h2 rest)
  case h_3 x d ds f1 f2 heq =>
    injection heq with e1 e2
    subst e1
    subst e2
    rfl
  case h_4 x heq => exact absurd heq (List.cons_ne_nil c cs)

theorem fenceFreeB_cons_of_ne (c : Char) (cs : List Char)
    (h1 : ∀ rest, c :: cs ≠ fenceOpenChars ++ rest)
    (h2 : ∀ rest, c :: cs ≠ fenceCloseChars ++ rest) :
    fenceFreeB (c :: cs) = fenceFreeB cs := by
  rw [fenceFreeB.eq_def]
  split
  case h_1 x rest heq => exact absurd heq (h1 rest)
  case h_2 x rest heq => exact absurd heq (h2 rest)
  case h_3 x d ds f1 f2 heq =>
    injection heq with e1 e2
    subst e1
    subst e2
    rfl
  case h_4 x heq => exact absurd heq (List.cons_ne_nil c cs)

theorem fence_shape_cases (l : List Char) :
    (∃ rest, l = fenceOpenChars ++ rest) ∨ (∃ rest, l = fenceCloseChars ++ rest) ∨
    ((∀ rest, l ≠ fenceOpenChars ++ rest) ∧ (∀ rest, l ≠ fenceCloseChars ++ rest)) := by
  by_cases h1 : ∃ rest, l = fenceOpenChars ++ rest
  · exact .inl h1
  · by_cases h2 : ∃ rest, l = fenceCloseChars ++ rest
    · exact .inr (.inl h2)
    · push_neg at h1 h2
      exact .inr (.inr ⟨h1, h2⟩)

theorem dropOpen_prefix_close :
    ∀ n, n ≤ 8 → 1 ≤ n → (fenceOpenChars.drop n <+: fenceCloseChars) → n = 7 ∨ n = 8 := by
  decide

theorem dropClose_prefix_close :
    ∀ n, n ≤ 4 → 1 ≤ n → (fenceCloseChars.drop n <+: fenceCloseChars) → n = 4 := by
  decide

theorem stripFences_append_close :
    ∀ s : List Char, fenceFreeB s = true → ¬(jsonTailChars <:+ s) →
      stripFences (s ++ fenceCloseChars) = s := by
  intro s
  induction s with
  | nil => intro _ _; decide
  | cons c cs ih =>
    intro hfree htail
    have hno0 : ∀ rest, c :: cs ≠ fenceOpenChars ++ rest := by
      intro rest h
      rw [h, fenceFreeB_open_prefix] at hfree
      cases hfree
    have hnc0 : ∀ rest, c :: cs ≠ fenceCloseChars ++ rest := by
      intro rest h
      rw [h, fenceFreeB_close_prefix] at hfree
      cases hfree
    have hfree' : fenceFreeB cs = true := by
      rw [fenceFreeB_cons_of_ne c cs hno0 hnc0] at hfree
      exact hfree
    have htail' : ¬(jsonTailChars <:+ cs) := by
      intro h
      exact htail (h.trans (List.suffix_cons c cs))
    rcases fence_shape_cases (c :: (cs ++ fenceCloseChars)) with
      ⟨rest, heq⟩ | ⟨rest, heq⟩ | ⟨hno, hnc⟩
    · have heq2 : (c :: cs) ++ fenceCloseChars = fenceOpenChars ++ rest := heq
      rcases List.append_eq_append_iff.mp heq2 with ⟨a2, ha, hb⟩ | ⟨c2, hc, _⟩
      · have hlen := congrArg List.length ha
        rw [List.length_append] at hlen
        rw [show fenceOpenChars.length = 8 from rfl] at hlen
        have ha2 : a2 = fenceOpenChars.drop (c :: cs).length := by
          rw [ha, List.drop_left]
        have hpre : fenceOpenChars.drop (c :: cs).length <+: fenceCloseChars := by
          rw [← ha2]
          exact ⟨rest, hb.symm⟩
        have hge : 1 ≤ (c :: cs).length := Nat.succ_le_succ (Nat.zero_le cs.length)
        rcases dropOpen_prefix_close (c :: cs).length (by omega) hge hpre with h7 | h8
        · have htk : fenceOpenChars.take 7 = c :: cs := by
            rw [← h7, ha, List.take_left]
          have he : jsonTailChars = c :: cs := by
            rw [show jsonTailChars = fenceOpenChars.take 7 from rfl]
            exact htk
          exact absurd (by rw [he] : jsonTailChars <:+ c :: cs) htail
        · have ha2nil : a2 = [] := by
            have : a2.length = 0 := by omega
            exact List.length_eq_zero.mp this
          rw [ha2nil, List.append_nil] at ha
          rw [← ha] at hfree
          rw [show fenceFreeB fenceOpenChars = false from rfl] at hfree
          cases hfree
      · rw [hc, fenceFreeB_open_prefix] at hfree
        cases hfree
    · have heq2 : (c :: cs) ++ fenceCloseChars = fenceCloseChars ++ rest := heq
      rcases List.append_eq_append_iff.mp heq2 with ⟨a2, ha, hb⟩ | ⟨c2, hc, _⟩
      · have hlen := congrArg List.length ha
        rw [List.length_append] at hlen
        rw [show fenceCloseChars.length = 4 from rfl] at hlen
        have ha2 : a2 = fenceCloseChars.drop (c :: cs).length := by
          rw [ha, List.drop_left]
        have hpre : fenceCloseChars.drop (c :: cs).length <+: fenceCloseChars := by
          rw [← ha2]
          exact ⟨rest, hb.symm⟩
        have hge : 1 ≤ (c :: cs).length := Nat.succ_le_succ (Nat.zero_le cs.length)
        have h4 := dropClose_prefix_close (c :: cs).length (by omega) hge hpre
        have ha2nil : a2 = [] := by
          have : a2.length = 0 := by omega
          exact List.length_eq_zero.mp this
        rw [ha2nil, List.append_nil] at ha
        rw [← ha] at hfree
        rw [show fenceFreeB fenceCloseChars = false from rfl] at hfree
        cases hfree
      · rw [hc, fenceFreeB_close_prefix] at hfree
        cases hfree
    · have hstep : stripFences (c :: (cs ++ fenceCloseChars)) =
          c :: stripFences (cs ++ fenceCloseChars) :=
        stripFences_cons_of_ne c (cs ++ fenceCloseChars) hno hnc
      calc stripFences ((c :: cs) ++ fenceCloseChars)
          = c :: stripFences (cs ++ fenceCloseChars) := hstep
        _ = c :: cs := by rw [ih hfree' htail']

theorem stripFences_wrap (s : List Char) (h1 : fenceFreeB s = true)
    (h2 : ¬(jsonTailChars <:+ s)) :
    stripFences (fenceOpenChars ++ s ++ fenceCloseChars) = s := by
  rw [List.append_assoc, stripFences_open_prefix]
  exact stripFences_append_close s h1 h2

theorem cleanResult_wrapJsonFence (s : String) (h1 : fenceFreeB s.data = true)
    (h2 : ¬(jsonTailChars <:+ s.data)) (h3 : trimChars s.data = s.data) :
    cleanResult (wrapJsonFence s) = s := by
  unfold cleanResult wrapJsonFence
  have hdata : ("\x60\x60\x60json\n" ++ s ++ "\n\x60\x60\x60").data =
      fenceOpenChars ++ s.data ++ fenceCloseChars := by
    rw [string_data_append, string_data_append]
    rfl
  rw [hdata, stripFences_wrap s.data h1 h2, h3, string_mk_data]

/-- C3: response parsing is total and tolerant — every reply yields either a
parsed value or the fallback object carrying the original text; when both the
direct parse and the single cleaned retry fail the result is exactly the
fallback object; and a reply that is well-formed content wrapped in fenced-code
markers parses to exactly the parse of the unwrapped content (the structural
side conditions hold for every valid JSON document, which can contain neither
fence marker, cannot end in the seven fence-open characters, and is taken
without surrounding whitespace). -/
theorem inference_parse_tolerant :
    ∀ (α : Type) (parse : String → Option α),
      (∀ s : String, (∃ w, parseWithRecovery parse s = .parsed w) ∨
        parseWithRecovery parse s = .fallback s "Failed to parse JSON") ∧
      (∀ s : String, parse s = none → parse (cleanResult s) = none →
        parseWithRecovery parse s = .fallback s "Failed to parse JSON") ∧
      (∀ (s : String) (v : α),
        fenceFreeB s.data = true → ¬(jsonTailChars <:+ s.data) →
        trimChars s.data = s.data →
        parse (wrapJsonFence s) = none → parse s = some v →
        parseWithRecovery parse (wrapJsonFence s) = .parsed v) := by
  intro α parse
  refine ⟨?_, ?_, ?_⟩
  · intro s
    unfold parseWithRecovery
    cases h1 : parse s with
    | some v => exact .inl ⟨v, rfl⟩
    | none =>
      cases h2 : parse (cleanResult s) with
      | some v => exact .inl ⟨v, rfl⟩
      | none => exact .inr rfl
  · intro s h1 h2
    unfold parseWithRecovery
    rw [h1, h2]
  · intro s v hf ht htr hnone hsome
    unfold parseWithRecovery
    rw [hnone, cleanResult_wrapJsonFence s hf ht htr, hsome]

/-- C3 witness: a concrete fenced JSON array parses to the parse of the
unwrapped content. -/
theorem inference_parse_tolerant_witness :
    fenceFreeB "[1, 2]".data = true ∧
    ¬(jsonTailChars <:+ "[1, 2]".data) ∧
    trimChars "[1, 2]".data = "[1, 2]".data ∧
    (fun t => if t = "[1, 2]" then some 3 else none) (wrapJsonFence "[1, 2]") = none ∧
    (fun t => if t = "[1, 2]" then some 3 else none) "[1, 2]" = some 3 ∧
    parseWithRecovery (fun t => if t = "[1, 2]" then some 3 else none)
      (wrapJsonFence "[1, 2]") = .parsed 3 := by
  refine ⟨by decide, by decide, by decide, by decide, by decide, ?_⟩
  exact (inference_parse_tolerant Nat
    (fun t => if t = "[1, 2]" then some 3 else none)).2.2 "[1, 2]" 3
    (by decide) (by decide) (by decide) (by decide) (by decide)
